import Mathlib

/-!
Verification development for the MPS (Material Planning Schedule) backend.

The repository is an Express + SQL Server application.  The definitions below
shallowly embed the server's route handlers and the SQL statements they issue
(schema.sql, server.js): table rows become Lean structures, the relational
state becomes lists of rows, SQL `MERGE` upserts become explicit
insert-or-update functions, and query-string / JSON-body validation is
modelled with `Option` values mirroring JavaScript truthiness.

Quantities (`DECIMAL(18,3)` columns) are modelled as `Rat`.
-/

set_option autoImplicit false

namespace MPS

/-! ## JavaScript-side parsing and truthiness

`parseIntSafe` in server.js is
`(v) => v === undefined || v === null || v === "" ? null : parseInt(v, 10)`.
`jsParseInt` models JavaScript `parseInt(s, 10)`: skip leading whitespace,
an optional sign, then read a run of decimal digits; `none` models `NaN`
(no digits found).  Both `null` and `NaN` are represented by `none`: the
handlers below only inspect these values through JavaScript truthiness
(`!x`), which treats `null`, `NaN` and `0` identically (all falsy). -/

def isSpaceChar (c : Char) : Bool :=
  c == ' ' || c == '\t' || c == '\n' || c == '\r'

def dropSpaces : List Char → List Char
  | [] => []
  | c :: cs => if isSpaceChar c then dropSpaces cs else c :: cs

def takeDigits : List Char → List Char
  | [] => []
  | c :: cs => if c.isDigit then c :: takeDigits cs else []

def digitsToNat (ds : List Char) : Nat :=
  ds.foldl (fun a c => a * 10 + (c.toNat - 48)) 0

def jsParseIntChars (cs : List Char) : Option Int :=
  match dropSpaces cs with
  | '-' :: rest =>
    match takeDigits rest with
    | [] => none
    | ds => some (-(digitsToNat ds : Int))
  | '+' :: rest =>
    match takeDigits rest with
    | [] => none
    | ds => some ((digitsToNat ds : Int))
  | other =>
    match takeDigits other with
    | [] => none
    | ds => some ((digitsToNat ds : Int))

def jsParseInt (s : String) : Option Int :=
  jsParseIntChars s.data

/-- server.js `parseIntSafe`: absent (`undefined`/`null`) or empty string
gives `null` (modelled `none`); otherwise `parseInt(v, 10)` (with `NaN`
also modelled `none`). -/
def parseIntSafe : Option String → Option Int
  | none => none
  | some s => if s == "" then none else jsParseInt s

/-- JavaScript truthiness of a number-or-null value: `null`/`NaN` (`none`)
and `0` are falsy. -/
def truthy : Option Int → Bool
  | none => false
  | some n => n != 0

/-- Structured error payload: HTTP status class plus the `{error: string}`
body the handlers send. -/
structure ErrResp where
  status : Nat
  error : String
deriving Repr, DecidableEq

/-! ## Opening balances (table OpeningBalances, PUT /api/opening-balance)

schema.sql: `OpeningBalances(ItemType CHAR(1), ItemId, StartYear, StartWeek,
BalanceQty, UNIQUE(ItemType, ItemId))`.  The PUT handler issues a `MERGE`
on `(ItemType, ItemId)`: matched rows are updated, otherwise a new row is
inserted. -/

structure OBRow where
  itemType : Char
  itemId : Int
  startYear : Int
  startWeek : Int
  balanceQty : Rat
deriving Repr, DecidableEq

def obKeyMatches (t : Char) (i : Int) (r : OBRow) : Bool :=
  r.itemType == t && r.itemId == i

/-- The `MERGE OpeningBalances` statement of PUT /api/opening-balance:
update every row matching `(ItemType, ItemId)`, or insert a new row when
none matches. -/
def obMerge (st : List OBRow) (t : Char) (i : Int) (y w : Int) (q : Rat) :
    List OBRow :=
  if st.any (obKeyMatches t i) then
    st.map (fun r =>
      if obKeyMatches t i r then
        { r with startYear := y, startWeek := w, balanceQty := q }
      else r)
  else
    st ++ [⟨t, i, y, w, q⟩]

/-- One PUT /api/opening-balance call that passed validation. -/
structure OBUpsert where
  itemType : Char
  itemId : Int
  startYear : Int
  startWeek : Int
  balanceQty : Rat
deriving Repr, DecidableEq

/-- The OpeningBalances state produced by a sequence of successful upserts
starting from the empty table. -/
def obApplyAll (ops : List OBUpsert) : List OBRow :=
  ops.foldl
    (fun st op => obMerge st op.itemType op.itemId op.startYear op.startWeek
      op.balanceQty) []

/-- Well-formedness of the OpeningBalances state: at most one row per
`(ItemType, ItemId)` key (the table's UNIQUE constraint). -/
def obWF (st : List OBRow) : Prop :=
  ∀ t i, ((st.filter (obKeyMatches t i)).length ≤ 1)

/-! ## Production orders (table ProductionOrders, GET /api/production)

server.js GET /api/production query:
`SELECT ProductId, PlanYear, PlanWeek, SUM(Quantity) FROM ProductionOrders
WHERE UPPER(Status) IN ('ACTIVE','COMPLETE') AND (range) AND (@productId IS
NULL OR ProductId = @productId) GROUP BY ProductId, PlanYear, PlanWeek`. -/

structure ProductionRow where
  productId : Int
  quantity : Rat
  planYear : Int
  planWeek : Int
  status : String
deriving Repr, DecidableEq

/-- SQL `UPPER` on the NVARCHAR status values (ASCII case folding). -/
def upperStr (s : String) : String :=
  String.mk (s.data.map Char.toUpper)

/-- The status filter `UPPER(Status) IN ('ACTIVE','COMPLETE')`. -/
def prodStatusCounts (s : String) : Bool :=
  upperStr s == "ACTIVE" || upperStr s == "COMPLETE"

/-- `(PlanYear > @fromYear OR (PlanYear = @fromYear AND PlanWeek >= @fromWeek))`. -/
def afterFrom (y w fy fw : Int) : Bool :=
  decide (y > fy) || (y == fy && decide (w >= fw))

/-- `(PlanYear < @toYear OR (PlanYear = @toYear AND PlanWeek <= @toWeek))`. -/
def beforeTo (y w ty tw : Int) : Bool :=
  decide (y < ty) || (y == ty && decide (w <= tw))

/-- The `WHERE` clause of the GET /api/production query for one row. -/
def prodRowQualifies (fy fw ty tw : Int) (pid? : Option Int)
    (r : ProductionRow) : Bool :=
  prodStatusCounts r.status
    && afterFrom r.planYear r.planWeek fy fw
    && beforeTo r.planYear r.planWeek ty tw
    && (match pid? with
        | none => true
        | some pid => r.productId == pid)

def prodKey (r : ProductionRow) : Int × Int × Int :=
  (r.productId, r.planYear, r.planWeek)

/-- The GET /api/production result set: `GROUP BY ProductId, PlanYear,
PlanWeek` with `SUM(Quantity)`, one `(key, qty)` entry per distinct key of
a qualifying row.  The `ORDER BY` of the groups is not modelled; no claim
concerns the order of the returned records. -/
def productionGroups (rows : List ProductionRow) (fy fw ty tw : Int)
    (pid? : Option Int) : List ((Int × Int × Int) × Rat) :=
  let qual := rows.filter (prodRowQualifies fy fw ty tw pid?)
  ((qual.map prodKey).dedup).map (fun k =>
    (k, ((qual.filter (fun r => prodKey r == k)).map (fun r => r.quantity)).sum))

/-- The per-key sum in the words of the claim: quantities of exactly those
rows at the key whose status uppercases to ACTIVE or COMPLETE (to be
compared with the range-filtered SQL aggregation for keys inside the
range). -/
def claimedProductionSumAt (rows : List ProductionRow)
    (k : Int × Int × Int) : Rat :=
  ((rows.filter (fun r => prodKey r == k && prodStatusCounts r.status)).map
    (fun r => r.quantity)).sum

/-! ## Purchase orders (tables PurchaseOrders / PurchaseOrderLines,
GET /api/purchase)

server.js GET /api/purchase query (second server version):
`SELECT pol.MaterialId, pol.EtaYear, pol.EtaWeek, SUM(pol.Quantity)
FROM PurchaseOrderLines pol JOIN PurchaseOrders po ON po.PurchaseOrderId =
pol.PurchaseOrderId WHERE UPPER(po.Status) = 'CONFIRM' AND (range) AND
(@materialId IS NULL OR pol.MaterialId = @materialId) GROUP BY ...`.
The first server version writes `po.Status = 'CONFIRM'`, which under the
SQL Server default case-insensitive collation performs the same comparison;
the explicit `UPPER` form is embedded here. -/

structure PurchaseOrder where
  purchaseOrderId : Int
  status : String
deriving Repr, DecidableEq

structure PurchaseOrderLine where
  purchaseOrderId : Int
  materialId : Int
  quantity : Rat
  etaYear : Int
  etaWeek : Int
deriving Repr, DecidableEq

/-- The `JOIN PurchaseOrders po ON po.PurchaseOrderId = pol.PurchaseOrderId`:
each line paired with every order row carrying its order id (unique in the
database by the primary key). -/
def polJoin (orders : List PurchaseOrder) (ls : List PurchaseOrderLine) :
    List (PurchaseOrder × PurchaseOrderLine) :=
  ls.flatMap (fun l =>
    (orders.filter (fun po => po.purchaseOrderId == l.purchaseOrderId)).map
      (fun po => (po, l)))

/-- The `WHERE` clause of GET /api/purchase for one joined pair. -/
def purchasePairQualifies (fy fw ty tw : Int) (mid? : Option Int)
    (pr : PurchaseOrder × PurchaseOrderLine) : Bool :=
  upperStr pr.1.status == "CONFIRM"
    && afterFrom pr.2.etaYear pr.2.etaWeek fy fw
    && beforeTo pr.2.etaYear pr.2.etaWeek ty tw
    && (match mid? with
        | none => true
        | some mid => pr.2.materialId == mid)

def polKey (pr : PurchaseOrder × PurchaseOrderLine) : Int × Int × Int :=
  (pr.2.materialId, pr.2.etaYear, pr.2.etaWeek)

/-- The GET /api/purchase result set: `GROUP BY pol.MaterialId, pol.EtaYear,
pol.EtaWeek` with `SUM(pol.Quantity)` over qualifying joined pairs. -/
def purchaseGroups (orders : List PurchaseOrder)
    (ls : List PurchaseOrderLine) (fy fw ty tw : Int) (mid? : Option Int) :
    List ((Int × Int × Int) × Rat) :=
  let qual := (polJoin orders ls).filter (purchasePairQualifies fy fw ty tw mid?)
  ((qual.map polKey).dedup).map (fun k =>
    (k, ((qual.filter (fun pr => polKey pr == k)).map
      (fun pr => pr.2.quantity)).sum))

/-- The summed quantity GET /api/purchase reports at one
(materialId, year, week) key. -/
def purchaseQtyAt (orders : List PurchaseOrder)
    (ls : List PurchaseOrderLine) (fy fw ty tw : Int) (mid? : Option Int)
    (k : Int × Int × Int) : Rat :=
  (((polJoin orders ls).filter (fun pr =>
      purchasePairQualifies fy fw ty tw mid? pr && polKey pr == k)).map
    (fun pr => pr.2.quantity)).sum

/-- Case-insensitive string equality, the comparison the claim describes. -/
def eqCaseInsensitive (s t : String) : Bool :=
  upperStr s == upperStr t

/-! ## Sales plans (table SalesPlans, GET and PUT /api/sales-plan)

schema.sql: `SalesPlans(ProductId, PlanYear, PlanWeek, ShipQty,
UNIQUE(ProductId, PlanYear, PlanWeek))`.  PUT /api/sales-plan runs one
`MERGE` per entry of the request's `plans` array inside a single
transaction and commits, or rolls the whole batch back on an error. -/

structure SPRow where
  productId : Int
  planYear : Int
  planWeek : Int
  shipQty : Rat
deriving Repr, DecidableEq

def spKeyMatches (pid y w : Int) (r : SPRow) : Bool :=
  r.productId == pid && r.planYear == y && r.planWeek == w

/-- The `MERGE SalesPlans` statement of PUT /api/sales-plan for one plan
row: update the `ShipQty` of matching rows, or insert a new row. -/
def spMerge (st : List SPRow) (pid y w : Int) (q : Rat) : List SPRow :=
  if st.any (spKeyMatches pid y w) then
    st.map (fun r =>
      if spKeyMatches pid y w r then { r with shipQty := q } else r)
  else
    st ++ [⟨pid, y, w, q⟩]

/-- One entry of the request's `plans` array; `qty` is `none` when the
field is absent or `null`. -/
structure PlanRow where
  year : Int
  week : Int
  qty : Option Rat
deriving Repr, DecidableEq

/-- The handler's `p.qty || 0` on a number-or-absent value: absent, `null`
and `0` are all falsy and coerce to `0`. -/
def qtyOrZero : Option Rat → Rat
  | none => 0
  | some v => if v == 0 then 0 else v

/-- The loop of PUT /api/sales-plan inside one transaction: apply the
`MERGE` row by row, stopping at the first failing write (`fails p` models
a storage error raised while writing row `p`). -/
def spApplyPlans (st : List SPRow) (pid : Int) (plans : List PlanRow)
    (fails : PlanRow → Bool) : Except Unit (List SPRow) :=
  match plans with
  | [] => .ok st
  | p :: rest =>
    if fails p then .error ()
    else spApplyPlans (spMerge st pid p.year p.week (qtyOrZero p.qty)) pid
      rest fails

/-- All plan rows applied in order: the committed SalesPlans state of a
fully successful PUT /api/sales-plan transaction. -/
def spApplyAll (st : List SPRow) (pid : Int) (plans : List PlanRow) :
    List SPRow :=
  plans.foldl (fun s p => spMerge s pid p.year p.week (qtyOrZero p.qty)) st

/-- PUT /api/sales-plan: reject a falsy `productId` or a non-array `plans`
with 400, otherwise run the merges inside a transaction; commit on
success, roll back (leaving the state unchanged) and answer one 500 error
when any row write fails.  Returns the resulting SalesPlans state together
with the response. -/
def salesPlanPut (st : List SPRow) (productId : Option Int)
    (plans : Option (List PlanRow)) (fails : PlanRow → Bool) :
    List SPRow × Except ErrResp Unit :=
  if !truthy productId || plans.isNone then
    (st, .error ⟨400, "productId and plans[] required"⟩)
  else
    match spApplyPlans st (productId.getD 0) (plans.getD []) fails with
    | .ok st2 => (st2, .ok ())
    | .error _ => (st, .error ⟨500, "Failed to upsert sales plan"⟩)

/-! ## Opening-balance route handlers -/

/-- Projection of an OpeningBalances row as returned by
GET /api/opening-balance/:type/:id (`StartYear AS year, StartWeek AS week,
BalanceQty AS balance`). -/
structure OBView where
  year : Int
  week : Int
  balance : Rat
deriving Repr, DecidableEq

/-- GET /api/opening-balance/:type/:id: the `type` segment "product" maps
to item type 'P', anything else to 'M'; an id that parses to `null`/`NaN`
or `0` is rejected with 400 "Invalid id"; otherwise the response is the
first matching row, or JSON `null` when none exists
(`recordset[0] || null`). -/
def obGetHandler (st : List OBRow) (typeParam idParam : String) :
    Except ErrResp (Option OBView) :=
  let itemType : Char := if typeParam == "product" then 'P' else 'M'
  let itemId := parseIntSafe (some idParam)
  if !truthy itemId then .error ⟨400, "Invalid id"⟩
  else
    .ok (((st.filter (obKeyMatches itemType (itemId.getD 0))).head?).map
      (fun r => ⟨r.startYear, r.startWeek, r.balanceQty⟩))

/-- PUT /api/opening-balance: reject an itemType other than "P"/"M";
reject falsy `itemId`/`startYear`/`startWeek` and an undefined
`balanceQty` with 400 "Missing fields"; otherwise run the `MERGE` upsert.
Body numbers are modelled as number-or-undefined (`none` = undefined). -/
def obPutHandler (st : List OBRow) (itemType : Option String)
    (itemId startYear startWeek : Option Int) (balanceQty : Option Rat) :
    List OBRow × Except ErrResp Unit :=
  if !(itemType == some "P" || itemType == some "M") then
    (st, .error ⟨400, "itemType must be P or M"⟩)
  else if !truthy itemId || !truthy startYear || !truthy startWeek
      || balanceQty.isNone then
    (st, .error ⟨400, "Missing fields"⟩)
  else
    (obMerge st (if itemType == some "P" then 'P' else 'M')
      (itemId.getD 0) (startYear.getD 0) (startWeek.getD 0)
      (balanceQty.getD 0), .ok ())

/-! ## Week-range GET handlers with their validation -/

/-- GET /api/production: parse the query strings with `parseIntSafe`,
answer 400 when any range field is falsy (`!fromYear || !fromWeek ||
!toYear || !toWeek`), otherwise run the aggregation query.  The store
`rows` is an argument, so a result that is a constant error implies no
query was executed. -/
def productionHandler (rows : List ProductionRow)
    (productId fromYear fromWeek toYear toWeek : Option String) :
    Except ErrResp (List ((Int × Int × Int) × Rat)) :=
  let pid := parseIntSafe productId
  let fy := parseIntSafe fromYear
  let fw := parseIntSafe fromWeek
  let ty := parseIntSafe toYear
  let tw := parseIntSafe toWeek
  if !truthy fy || !truthy fw || !truthy ty || !truthy tw then
    .error ⟨400, "fromYear/fromWeek/toYear/toWeek required"⟩
  else
    .ok (productionGroups rows (fy.getD 0) (fw.getD 0) (ty.getD 0)
      (tw.getD 0) pid)

/-- GET /api/purchase: same validation of the four range fields
(`materialId` is optional), then the join-and-group query. -/
def purchaseHandler (orders : List PurchaseOrder)
    (ls : List PurchaseOrderLine)
    (materialId fromYear fromWeek toYear toWeek : Option String) :
    Except ErrResp (List ((Int × Int × Int) × Rat)) :=
  let mid := parseIntSafe materialId
  let fy := parseIntSafe fromYear
  let fw := parseIntSafe fromWeek
  let ty := parseIntSafe toYear
  let tw := parseIntSafe toWeek
  if !truthy fy || !truthy fw || !truthy ty || !truthy tw then
    .error ⟨400, "fromYear/fromWeek/toYear/toWeek required"⟩
  else
    .ok (purchaseGroups orders ls (fy.getD 0) (fw.getD 0) (ty.getD 0)
      (tw.getD 0) mid)

/-- The rows GET /api/sales-plan selects: `WHERE ProductId = @productId`
plus the lexicographic week range (no grouping in this query). -/
def salesPlanRowsOut (sp : List SPRow) (pid fy fw ty tw : Int) :
    List (Int × Int × Rat) :=
  (sp.filter (fun r => r.productId == pid
    && afterFrom r.planYear r.planWeek fy fw
    && beforeTo r.planYear r.planWeek ty tw)).map
    (fun r => (r.planYear, r.planWeek, r.shipQty))

/-- GET /api/sales-plan: `productId` is required on top of the four range
fields (`!productId || !fromYear || ...` answers 400). -/
def salesPlanGetHandler (sp : List SPRow)
    (productId fromYear fromWeek toYear toWeek : Option String) :
    Except ErrResp (List (Int × Int × Rat)) :=
  let pid := parseIntSafe productId
  let fy := parseIntSafe fromYear
  let fw := parseIntSafe fromWeek
  let ty := parseIntSafe toYear
  let tw := parseIntSafe toWeek
  if !truthy pid || !truthy fy || !truthy fw || !truthy ty || !truthy tw then
    .error ⟨400, "productId/from/to required"⟩
  else
    .ok (salesPlanRowsOut sp (pid.getD 0) (fy.getD 0) (fw.getD 0)
      (ty.getD 0) (tw.getD 0))

/-! ## Balance Projector

The weekly balance projection itself runs in the frontend
(modules/MPS/index.html), which is not part of the included sources; only
README.md describes it (`Balance`: opening week fixed; next weeks
`prev_balance - ship_qty + pro_qty` for products and
`prev_balance - stock_out + stock_in` for materials; weeks before opening
= 0).  The projector definitions below are therefore modelled from the
spec; the weekly movement series they consume are the aggregations
embedded above from the server's SQL. -/

/-- Modelled from the spec: a (year, week) key, ordered by year then week;
`week` is an integer tag in `[1, 53]` (the frontend's week enumeration is
missing from the included sources). -/
structure WeekKey where
  year : Int
  week : Int
deriving Repr, DecidableEq

/-- Modelled from the spec: Week Calendar strict order — compare year,
then week. -/
def weekBefore (a b : WeekKey) : Bool :=
  decide (a.year < b.year) || (a.year == b.year && decide (a.week < b.week))

/-- Week tags run from 1 to 53. -/
def weekValid (w : WeekKey) : Prop :=
  1 ≤ w.week ∧ w.week ≤ 53

instance (w : WeekKey) : Decidable (weekValid w) := by
  unfold weekValid
  infer_instance

/-- Modelled from the spec: the successor week; week 53 wraps to week 1 of
the next year. -/
def nextWeek (w : WeekKey) : WeekKey :=
  if w.week < 53 then ⟨w.year, w.week + 1⟩ else ⟨w.year + 1, 1⟩

/-- The predecessor week; week 1 wraps to week 53 of the previous year. -/
def prevWeek (w : WeekKey) : WeekKey :=
  if 1 < w.week then ⟨w.year, w.week - 1⟩ else ⟨w.year - 1, 53⟩

/-- Linear index of a week: 53 weeks per year, so that consecutive valid
weeks have consecutive indices. -/
def weekIdx (w : WeekKey) : Int :=
  w.year * 53 + w.week

def weekAdd (w : WeekKey) : Nat → WeekKey
  | 0 => w
  | n + 1 => nextWeek (weekAdd w n)

/-- Modelled from the spec: the running balance walked forward from the
anchor; step `0` is the anchor week itself (balance fixed to the opening
quantity), step `n + 1` subtracts that week's outflow and adds that
week's inflow. -/
def balSeq (anchor : WeekKey) (q0 : Rat) (outflow inflow : WeekKey → Rat) :
    Nat → Rat
  | 0 => q0
  | n + 1 => balSeq anchor q0 outflow inflow n
      - outflow (weekAdd anchor (n + 1)) + inflow (weekAdd anchor (n + 1))

/-- Modelled from the spec: the Balance Projector for one item.  With no
opening balance every week projects 0; weeks strictly before the anchor
project 0; from the anchor on, the recurrence `balSeq` walked
`weekIdx w - weekIdx anchor` steps. -/
def projectBalance (ob : Option (WeekKey × Rat))
    (outflow inflow : WeekKey → Rat) (w : WeekKey) : Rat :=
  match ob with
  | none => 0
  | some (anchor, q0) =>
    if weekBefore w anchor then 0
    else balSeq anchor q0 outflow inflow (weekIdx w - weekIdx anchor).toNat

/-- Product outflow: the stored ShipQty rows summed at `(pid, w)` (the
series GET /api/sales-plan serves). -/
def shipQtyAt (sp : List SPRow) (pid : Int) (w : WeekKey) : Rat :=
  ((sp.filter (spKeyMatches pid w.year w.week)).map (fun r => r.shipQty)).sum

/-- Product inflow: production quantity with `UPPER(Status) IN
('ACTIVE','COMPLETE')` summed at `(pid, w)` (the series GET
/api/production serves). -/
def productionInflowAt (rows : List ProductionRow) (pid : Int)
    (w : WeekKey) : Rat :=
  ((rows.filter (fun r => prodStatusCounts r.status && r.productId == pid
      && r.planYear == w.year && r.planWeek == w.week)).map
    (fun r => r.quantity)).sum

/-- One BOM line (table BomLines, unique per (ProductId, MaterialId)). -/
structure BomLine where
  productId : Int
  materialId : Int
  consumePerUnit : Rat
deriving Repr, DecidableEq

/-- Modelled from the spec: BOM-derived consumption of a material —
`productionQty(week) · consumePerUnit` summed over the BOM lines naming
the material (the derivation also runs in the frontend). -/
def bomConsumptionAt (bom : List BomLine) (prows : List ProductionRow)
    (mid : Int) (w : WeekKey) : Rat :=
  ((bom.filter (fun b => b.materialId == mid)).map
    (fun b => productionInflowAt prows b.productId w * b.consumePerUnit)).sum

/-- Material inflow: confirmed purchase quantity summed at `(mid, w)` (the
series GET /api/purchase serves). -/
def purchaseInflowAt (orders : List PurchaseOrder)
    (ls : List PurchaseOrderLine) (mid : Int) (w : WeekKey) : Rat :=
  (((polJoin orders ls).filter (fun pr =>
      upperStr pr.1.status == "CONFIRM" && pr.2.materialId == mid
        && pr.2.etaYear == w.year && pr.2.etaWeek == w.week)).map
    (fun pr => pr.2.quantity)).sum

/-- The projected weekly balance of a product: outflow = ship quantity,
inflow = ACTIVE/COMPLETE production quantity. -/
def projectProductBalance (ob : Option (WeekKey × Rat)) (sp : List SPRow)
    (prows : List ProductionRow) (pid : Int) (w : WeekKey) : Rat :=
  projectBalance ob (shipQtyAt sp pid) (productionInflowAt prows pid) w

/-- The projected weekly balance of a material: outflow = BOM-derived
consumption, inflow = confirmed purchase quantity. -/
def projectMaterialBalance (ob : Option (WeekKey × Rat))
    (bom : List BomLine) (prows : List ProductionRow)
    (orders : List PurchaseOrder) (ls : List PurchaseOrderLine)
    (mid : Int) (w : WeekKey) : Rat :=
  projectBalance ob (bomConsumptionAt bom prows mid)
    (purchaseInflowAt orders ls mid) w

/-! ## Theorems -/

theorem filter_eq_nil_of_any_false {α : Type} (p : α → Bool) (l : List α)
    (h : l.any p = false) : l.filter p = [] := by
  induction l with
  | nil => rfl
  | cons a l ih =>
    simp only [List.any_cons, Bool.or_eq_false_iff] at h
    simp [List.filter_cons, h.1, ih h.2]

theorem obMerge_filter_map (st : List OBRow) (t : Char) (i : Int) (y w : Int)
    (q : Rat) (t2 : Char) (i2 : Int) :
    ((st.map (fun r =>
        if obKeyMatches t i r then
          { r with startYear := y, startWeek := w, balanceQty := q }
        else r)).filter (obKeyMatches t2 i2))
      = (st.filter (obKeyMatches t2 i2)).map (fun r =>
          if obKeyMatches t i r then
            { r with startYear := y, startWeek := w, balanceQty := q }
          else r) := by
  induction st with
  | nil => rfl
  | cons a l ih =>
    by_cases h : obKeyMatches t i a
    · simp only [List.map_cons, h, if_pos, List.filter_cons]
      have hk : obKeyMatches t2 i2
          { a with startYear := y, startWeek := w, balanceQty := q }
          = obKeyMatches t2 i2 a := by
        simp [obKeyMatches]
      rw [hk]
      by_cases h2 : obKeyMatches t2 i2 a
      · simp [h2, ih, h]
      · simp [h2, ih]
    · simp only [List.map_cons, h, if_neg, List.filter_cons]
      by_cases h2 : obKeyMatches t2 i2 a
      · simp [h2, ih, h]
      · simp [h2, ih]

theorem obMerge_preserves_wf (st : List OBRow) (t : Char) (i : Int)
    (y w : Int) (q : Rat) (hwf : obWF st) :
    obWF (obMerge st t i y w q) := by
  intro t2 i2
  unfold obMerge
  by_cases hany : st.any (obKeyMatches t i)
  · simp only [hany, if_pos]
    rw [obMerge_filter_map]
    simpa using hwf t2 i2
  · simp only [hany, if_neg, Bool.not_eq_true]
    rw [List.filter_append]
    by_cases hk : obKeyMatches t2 i2 (⟨t, i, y, w, q⟩ : OBRow)
    · have hnil : st.filter (obKeyMatches t2 i2) = [] := by
        have ht2 : t = t2 ∧ i = i2 := by
          simpa [obKeyMatches] using hk
        rw [← ht2.1, ← ht2.2]
        exact filter_eq_nil_of_any_false _ _ (by simpa using hany)
      simp [hnil, hk]
    · simp only [List.filter_cons]
      simp [hk, hwf t2 i2]

theorem obMerge_lookup (st : List OBRow) (t : Char) (i : Int) (y w : Int)
    (q : Rat) (hwf : obWF st) :
    (obMerge st t i y w q).filter (obKeyMatches t i)
      = [⟨t, i, y, w, q⟩] := by
  unfold obMerge
  by_cases hany : st.any (obKeyMatches t i)
  · simp only [hany, if_pos]
    rw [obMerge_filter_map]
    rcases hf : st.filter (obKeyMatches t i) with _ | ⟨r, rest⟩
    · exfalso
      rcases List.any_eq_true.mp hany with ⟨a, ha, hpa⟩
      have hmem : a ∈ st.filter (obKeyMatches t i) := List.mem_filter.mpr ⟨ha, hpa⟩
      rw [hf] at hmem
      exact absurd hmem (List.not_mem_nil a)
    · have hlen := hwf t i
      rw [hf] at hlen
      have hrest : rest = [] := by
        have h1 : rest.length = 0 := by simpa using hlen
        exact List.length_eq_zero.mp h1
      subst hrest
      have hkr : obKeyMatches t i r = true := by
        have hmem : r ∈ st.filter (obKeyMatches t i) := by
          rw [hf]; exact List.mem_cons_self r []
        exact (List.mem_filter.mp hmem).2
      rcases r with ⟨rt, ri, ry, rweek, rq⟩
      have hti : rt = t ∧ ri = i := by simpa [obKeyMatches] using hkr
      obtain ⟨h1, h2⟩ := hti
      subst h1
      subst h2
      simp [hkr]
  · simp only [hany, if_neg, Bool.not_eq_true]
    rw [List.filter_append]
    have hnil : st.filter (obKeyMatches t i) =
        [] := filter_eq_nil_of_any_false _ _ (by simpa using hany)
    simp [hnil, obKeyMatches]

theorem obApplyAll_wf (ops : List OBUpsert) : obWF (obApplyAll ops) := by
  suffices h : ∀ st, obWF st → obWF (ops.foldl
      (fun st op => obMerge st op.itemType op.itemId op.startYear op.startWeek
        op.balanceQty) st) by
    exact h [] (by intro t i; simp)
  induction ops with
  | nil => intro st hst; simpa using hst
  | cons op rest ih =>
    intro st hst
    exact ih _ (obMerge_preserves_wf st _ _ _ _ _ hst)

/-- C4: repeated PUT /api/opening-balance upserts keep at most one
OpeningBalances row per `(itemType, itemId)` key, and after an upsert for a
key the single stored row carries exactly that latest call's anchor week
and balance quantity (a repeat upsert replaces, never inserts a second
row). -/
theorem C4_single_opening_balance :
    (∀ ops : List OBUpsert, ∀ t : Char, ∀ i : Int,
      ((obApplyAll ops).filter (obKeyMatches t i)).length ≤ 1)
    ∧ (∀ ops : List OBUpsert, ∀ op : OBUpsert,
      (obApplyAll (ops ++ [op])).filter (obKeyMatches op.itemType op.itemId)
        = [⟨op.itemType, op.itemId, op.startYear, op.startWeek,
            op.balanceQty⟩]) := by
  constructor
  · intro ops t i
    exact obApplyAll_wf ops t i
  · intro ops op
    have h : obApplyAll (ops ++ [op])
        = obMerge (obApplyAll ops) op.itemType op.itemId op.startYear
            op.startWeek op.balanceQty := by
      unfold obApplyAll
      rw [List.foldl_append]
      rfl
    rw [h]
    exact obMerge_lookup _ _ _ _ _ _ (obApplyAll_wf ops)

theorem prodQualifies_false_of_status (fy fw ty tw : Int) (pid? : Option Int)
    (r : ProductionRow) (h : prodStatusCounts r.status = false) :
    prodRowQualifies fy fw ty tw pid? r = false := by
  simp [prodRowQualifies, h]

theorem prodQualifies_false_of_range (fy fw ty tw : Int) (pid? : Option Int)
    (r : ProductionRow)
    (h : (afterFrom r.planYear r.planWeek fy fw
          && beforeTo r.planYear r.planWeek ty tw) = false) :
    prodRowQualifies fy fw ty tw pid? r = false := by
  unfold prodRowQualifies
  rcases Bool.and_eq_false_iff.mp h with h1 | h1 <;> simp [h1]

/-- C2: the GET /api/production endpoint returns, per (productId, year,
week) key, the sum of the quantities of exactly those rows at that key
whose status uppercases to ACTIVE or COMPLETE; every returned key lies in
the requested range, and INITIAL rows (any letter case) as well as rows
outside the lexicographic range contribute nothing to the result. -/
theorem C2_production_status_filter_and_sum :
    ∀ rows : List ProductionRow, ∀ fy fw ty tw : Int,
      (∀ kq ∈ productionGroups rows fy fw ty tw none,
        (afterFrom kq.1.2.1 kq.1.2.2 fy fw
          && beforeTo kq.1.2.1 kq.1.2.2 ty tw) = true
        ∧ kq.2 = claimedProductionSumAt rows kq.1)
      ∧ (∀ r : ProductionRow, upperStr r.status = "INITIAL" →
          ∀ pid? : Option Int,
            productionGroups (r :: rows) fy fw ty tw pid?
              = productionGroups rows fy fw ty tw pid?)
      ∧ (∀ r : ProductionRow,
          (afterFrom r.planYear r.planWeek fy fw
            && beforeTo r.planYear r.planWeek ty tw) = false →
          ∀ pid? : Option Int,
            productionGroups (r :: rows) fy fw ty tw pid?
              = productionGroups rows fy fw ty tw pid?) := by
  intro rows fy fw ty tw
  refine ⟨?_, ?_, ?_⟩
  · intro kq hkq
    simp only [productionGroups, List.mem_map] at hkq
    rcases hkq with ⟨k, hkmem, hkeq⟩
    have hkmem2 : k ∈ (rows.filter
        (prodRowQualifies fy fw ty tw none)).map prodKey :=
      List.mem_dedup.mp hkmem
    rcases List.mem_map.mp hkmem2 with ⟨r, hrmem, hrk⟩
    have hq : prodRowQualifies fy fw ty tw none r = true :=
      (List.mem_filter.mp hrmem).2
    have hrange : (afterFrom r.planYear r.planWeek fy fw
        && beforeTo r.planYear r.planWeek ty tw) = true := by
      unfold prodRowQualifies at hq
      rcases Bool.and_eq_true_iff.mp hq with ⟨hq1, _⟩
      rcases Bool.and_eq_true_iff.mp hq1 with ⟨hq2, hb⟩
      rcases Bool.and_eq_true_iff.mp hq2 with ⟨_, ha⟩
      rw [ha, hb]
      rfl
    have hkcomp : k.2.1 = r.planYear ∧ k.2.2 = r.planWeek := by
      rw [← hrk]
      exact ⟨rfl, rfl⟩
    constructor
    · rw [← hkeq]
      simp only [hkcomp.1, hkcomp.2]
      exact hrange
    · rw [← hkeq]
      simp only []
      rw [List.filter_filter]
      unfold claimedProductionSumAt
      congr 2
      apply List.filter_congr
      intro x _
      by_cases hx : prodKey x == k
      · have hxx : prodKey x = k := by simpa using hx
        have hxy : x.planYear = k.2.1 ∧ x.planWeek = k.2.2 := by
          rw [← hxx]
          exact ⟨rfl, rfl⟩
        have hxr : (afterFrom x.planYear x.planWeek fy fw
            && beforeTo x.planYear x.planWeek ty tw) = true := by
          rw [hxy.1, hxy.2, hkcomp.1, hkcomp.2]
          exact hrange
        rcases Bool.and_eq_true_iff.mp hxr with ⟨ha, hb⟩
        simp [prodRowQualifies, hx, ha, hb, Bool.and_comm]
      · simp only [Bool.not_eq_true] at hx
        simp [hx]
  · intro r hinit pid?
    have hs : prodStatusCounts r.status = false := by
      unfold prodStatusCounts
      rw [hinit]
      decide
    have hq := prodQualifies_false_of_status fy fw ty tw pid? r hs
    simp [productionGroups, List.filter_cons, hq]
  · intro r hrange pid?
    have hq := prodQualifies_false_of_range fy fw ty tw pid? r hrange
    simp [productionGroups, List.filter_cons, hq]

/-- C3: GET /api/purchase sums a purchase-order line into the result if and
only if its parent order's status equals CONFIRM case-insensitively: the
endpoint's status test coincides with case-insensitive equality against
"CONFIRM", every reported group value is the per-key sum of qualifying
joined lines, and a line (in range, at its own key) adds its quantity when
its unique parent order's status is case-insensitively CONFIRM and adds
zero for any other status. -/
theorem C3_purchase_confirm_filter :
    (∀ s : String, eqCaseInsensitive s "CONFIRM" = (upperStr s == "CONFIRM"))
    ∧ (∀ (orders : List PurchaseOrder) (ls : List PurchaseOrderLine)
        (fy fw ty tw : Int) (mid? : Option Int),
        ∀ kq ∈ purchaseGroups orders ls fy fw ty tw mid?,
          kq.2 = purchaseQtyAt orders ls fy fw ty tw mid? kq.1)
    ∧ (∀ (orders : List PurchaseOrder) (ls : List PurchaseOrderLine)
        (po : PurchaseOrder) (l : PurchaseOrderLine) (fy fw ty tw : Int),
        orders.filter (fun o => o.purchaseOrderId == l.purchaseOrderId)
          = [po] →
        (afterFrom l.etaYear l.etaWeek fy fw
          && beforeTo l.etaYear l.etaWeek ty tw) = true →
        purchaseQtyAt orders (l :: ls) fy fw ty tw none
            (l.materialId, l.etaYear, l.etaWeek)
          = (if eqCaseInsensitive po.status "CONFIRM" then l.quantity else 0)
            + purchaseQtyAt orders ls fy fw ty tw none
                (l.materialId, l.etaYear, l.etaWeek)) := by
  have hconf : upperStr "CONFIRM" = "CONFIRM" := by decide
  refine ⟨?_, ?_, ?_⟩
  · intro s
    simp [eqCaseInsensitive, hconf]
  · intro orders ls fy fw ty tw mid? kq hkq
    simp only [purchaseGroups, List.mem_map] at hkq
    rcases hkq with ⟨k, hkmem, hkeq⟩
    rw [← hkeq]
    simp only [purchaseQtyAt]
    rw [List.filter_filter]
    congr 2
    apply List.filter_congr
    intro x _
    exact Bool.and_comm _ _
  · intro orders ls po l fy fw ty tw hpo hrange
    have hjoin : polJoin orders (l :: ls)
        = [(po, l)] ++ polJoin orders ls := by
      simp only [polJoin, List.flatMap_cons, hpo, List.map_cons, List.map_nil]
    rcases Bool.and_eq_true_iff.mp hrange with ⟨ha, hb⟩
    simp only [purchaseQtyAt, hjoin, List.filter_append, List.map_append,
      List.sum_append]
    have hsingle : ([(po, l)].filter (fun pr =>
        purchasePairQualifies fy fw ty tw none pr
          && polKey pr == (l.materialId, l.etaYear, l.etaWeek)))
        = if eqCaseInsensitive po.status "CONFIRM" then [(po, l)] else [] := by
      have hkey : (polKey (po, l)
          == (l.materialId, l.etaYear, l.etaWeek)) = true := by
        simp [polKey]
      have hqual : purchasePairQualifies fy fw ty tw none (po, l)
          = (upperStr po.status == "CONFIRM") := by
        simp [purchasePairQualifies, ha, hb]
      rw [List.filter_cons]
      simp only [hqual, hkey, Bool.and_true, List.filter_nil,
        eqCaseInsensitive, hconf]
    rw [hsingle]
    by_cases hs : eqCaseInsensitive po.status "CONFIRM" <;> simp [hs]

theorem spApplyPlans_ok (pid : Int) (fails : PlanRow → Bool) :
    ∀ plans : List PlanRow, (∀ p ∈ plans, fails p = false) →
    ∀ st, spApplyPlans st pid plans fails = .ok (spApplyAll st pid plans) := by
  intro plans
  induction plans with
  | nil => intro _ st; rfl
  | cons p rest ih =>
    intro hok st
    have hp : fails p = false := hok p (List.mem_cons_self p rest)
    simp only [spApplyPlans, hp, Bool.false_eq_true, if_false]
    exact ih (fun q hq => hok q (List.mem_cons_of_mem p hq)) _

theorem spApplyPlans_err (pid : Int) (fails : PlanRow → Bool) :
    ∀ plans : List PlanRow, (∃ p ∈ plans, fails p = true) →
    ∀ st, spApplyPlans st pid plans fails = .error () := by
  intro plans
  induction plans with
  | nil =>
    rintro ⟨p, hp, _⟩ st
    exact absurd hp (List.not_mem_nil p)
  | cons p rest ih =>
    rintro ⟨q, hq, hfq⟩ st
    by_cases hp : fails p = true
    · simp only [spApplyPlans, hp, if_true]
    · simp only [Bool.not_eq_true] at hp
      have hqrest : q ∈ rest := by
        rcases List.mem_cons.mp hq with h | h
        · rw [h] at hfq
          rw [hfq] at hp
          exact absurd hp (by simp)
        · exact h
      simp only [spApplyPlans, hp, Bool.false_eq_true, if_false]
      exact ih ⟨q, hqrest, hfq⟩ _

/-- C7: a PUT /api/sales-plan batch is all-or-nothing — when no row write
fails the whole batch is applied and the caller sees ok; when any row
write fails the SalesPlans state is left unchanged (the transaction is
rolled back) and the caller sees one single 500 error. -/
theorem C7_sales_plan_batch_atomicity :
    ∀ (st : List SPRow) (pid : Int) (plans : List PlanRow)
      (fails : PlanRow → Bool), pid ≠ 0 →
      ((∀ p ∈ plans, fails p = false) →
        salesPlanPut st (some pid) (some plans) fails
          = (spApplyAll st pid plans, .ok ()))
      ∧ ((∃ p ∈ plans, fails p = true) →
        salesPlanPut st (some pid) (some plans) fails
          = (st, .error ⟨500, "Failed to upsert sales plan"⟩)) := by
  intro st pid plans fails hpid
  have ht : truthy (some pid) = true := by simp [truthy, hpid]
  constructor
  · intro hok
    simp only [salesPlanPut, ht, Bool.not_true, Option.isNone_some,
      Bool.or_self, Bool.false_eq_true, if_false, Option.getD_some]
    rw [spApplyPlans_ok pid fails plans hok st]
  · intro herr
    simp only [salesPlanPut, ht, Bool.not_true, Option.isNone_some,
      Bool.or_self, Bool.false_eq_true, if_false, Option.getD_some]
    rw [spApplyPlans_err pid fails plans herr st]

/-- C10: PUT /api/sales-plan coerces a missing, null or zero `qty` to a
stored ShipQty of 0 (`p.qty || 0`): the stored quantity is always
`qty.getD 0` (never null, by the type of `SPRow.shipQty`), and replacing
every row's `qty` by the explicitly-supplied coerced value — in particular
an omitted `qty` by an explicit 0 — produces an indistinguishable
SalesPlans state, both for the committed fold and for the full handler. -/
theorem C10_ship_qty_coercion :
    (qtyOrZero none = 0 ∧ qtyOrZero (some 0) = 0)
    ∧ (∀ q : Option Rat, qtyOrZero q = q.getD 0)
    ∧ (∀ (st : List SPRow) (pid : Int) (plans : List PlanRow),
        spApplyAll st pid (plans.map (fun p =>
          { p with qty := some (qtyOrZero p.qty) }))
          = spApplyAll st pid plans)
    ∧ (∀ (st : List SPRow) (productId : Option Int) (plans : List PlanRow),
        salesPlanPut st productId (some (plans.map (fun p =>
          { p with qty := some (qtyOrZero p.qty) }))) (fun _ => false)
          = salesPlanPut st productId (some plans) (fun _ => false)) := by
  have hgetD : ∀ q : Option Rat, qtyOrZero q = q.getD 0 := by
    intro q
    rcases q with _ | v
    · rfl
    · simp only [qtyOrZero, Option.getD_some]
      by_cases hv : v = 0
      · simp [hv]
      · simp [hv]
  have hcoerce : ∀ q : Option Rat,
      qtyOrZero (some (qtyOrZero q)) = qtyOrZero q := by
    intro q
    rw [hgetD (some (qtyOrZero q)), Option.getD_some]
  have hmap : ∀ (pid : Int) (plans : List PlanRow) (st : List SPRow),
      spApplyAll st pid (plans.map (fun p =>
        { p with qty := some (qtyOrZero p.qty) })) = spApplyAll st pid plans := by
    intro pid plans
    induction plans with
    | nil => intro st; rfl
    | cons p rest ih =>
      intro st
      simp only [List.map_cons, spApplyAll, List.foldl_cons, hcoerce]
      exact ih _
  refine ⟨⟨rfl, by simp [qtyOrZero]⟩, hgetD,
    fun st pid plans => hmap pid plans st, ?_⟩
  intro st productId plans
  by_cases hv : truthy productId
  · simp only [salesPlanPut, hv, Bool.not_true, Option.isNone_some,
      Bool.or_self, Bool.false_eq_true, if_false, Option.getD_some]
    rw [spApplyPlans_ok _ _ _ (fun _ _ => rfl) st,
      spApplyPlans_ok _ _ _ (fun _ _ => rfl) st, hmap]
  · simp only [Bool.not_eq_true] at hv
    simp [salesPlanPut, hv]

/-- C8: for an item with no stored opening balance,
GET /api/opening-balance/:type/:id succeeds with the value `null` rather
than an error; when a row exists the handler returns that row's year, week
and balance. -/
theorem C8_opening_balance_absent_is_null :
    ∀ (st : List OBRow) (typeParam idParam : String) (n : Int),
      jsParseInt idParam = some n → n ≠ 0 →
      (st.filter (obKeyMatches
          (if typeParam == "product" then 'P' else 'M') n) = [] →
        obGetHandler st typeParam idParam = .ok none)
      ∧ (∀ (r : OBRow) (rest : List OBRow),
        st.filter (obKeyMatches
          (if typeParam == "product" then 'P' else 'M') n) = r :: rest →
        obGetHandler st typeParam idParam
          = .ok (some ⟨r.startYear, r.startWeek, r.balanceQty⟩)) := by
  intro st typeParam idParam n hparse hn
  have hne : (idParam == "") = false := by
    cases h : idParam == ""
    · rfl
    · exfalso
      have hid : idParam = "" := by simpa using h
      rw [hid] at hparse
      have hnil : jsParseInt "" = none := rfl
      rw [hnil] at hparse
      exact Option.noConfusion hparse
  have hps : parseIntSafe (some idParam) = some n := by
    simp [parseIntSafe, hne, hparse]
  have ht : truthy (some n) = true := by
    simp [truthy, hn]
  constructor
  · intro hfil
    simp only [obGetHandler, hps, ht, Bool.not_true, Bool.false_eq_true,
      if_false, Option.getD_some, hfil, List.head?_nil]
    rfl
  · intro r rest hfil
    simp only [obGetHandler, hps, ht, Bool.not_true, Bool.false_eq_true,
      if_false, Option.getD_some, hfil, List.head?_cons]
    rfl

/-- C9: PUT /api/opening-balance accepts an explicit `balanceQty` of 0
(only an undefined `balanceQty` is rejected), but rejects a request whose
`itemId`, `startYear` or `startWeek` equals 0 with 400 "Missing fields",
because the validation treats any falsy value as missing. -/
theorem C9_zero_valued_fields_validation :
    (∀ (st : List OBRow) (id y w : Int), id ≠ 0 → y ≠ 0 → w ≠ 0 →
      obPutHandler st (some "P") (some id) (some y) (some w) (some 0)
        = (obMerge st 'P' id y w 0, .ok ()))
    ∧ (∀ (st : List OBRow) (y w : Int) (q : Option Rat),
      obPutHandler st (some "P") (some 0) (some y) (some w) q
        = (st, .error ⟨400, "Missing fields"⟩))
    ∧ (∀ (st : List OBRow) (id w : Int) (q : Option Rat),
      obPutHandler st (some "P") (some id) (some 0) (some w) q
        = (st, .error ⟨400, "Missing fields"⟩))
    ∧ (∀ (st : List OBRow) (id y : Int) (q : Option Rat),
      obPutHandler st (some "P") (some id) (some y) (some 0) q
        = (st, .error ⟨400, "Missing fields"⟩))
    ∧ (∀ (st : List OBRow) (id y w : Int),
      obPutHandler st (some "P") (some id) (some y) (some w) none
        = (st, .error ⟨400, "Missing fields"⟩)) := by
  refine ⟨?_, ?_, ?_, ?_, ?_⟩
  · intro st id y w hid hy hw
    simp [obPutHandler, truthy, hid, hy, hw]
  · intro st y w q
    simp [obPutHandler, truthy]
  · intro st id w q
    simp [obPutHandler, truthy]
  · intro st id y q
    simp [obPutHandler, truthy]
  · intro st id y w
    simp [obPutHandler, truthy]

/-- C6: when any required query field of the three week-range GET
endpoints is absent or non-numeric (`parseIntSafe` yields `null`/`NaN`,
modelled `none`), the endpoint answers HTTP 400 with a structured
`{error}` payload.  The store contents are universally quantified and the
result is a constant error, so no query against the store is executed. -/
theorem C6_missing_or_nonnumeric_params_rejected :
    (∀ (rows : List ProductionRow) (orders : List PurchaseOrder)
      (ls : List PurchaseOrderLine) (sp : List SPRow)
      (productId materialId fromYear fromWeek toYear toWeek : Option String),
      (parseIntSafe fromYear = none ∨ parseIntSafe fromWeek = none
        ∨ parseIntSafe toYear = none ∨ parseIntSafe toWeek = none) →
      productionHandler rows productId fromYear fromWeek toYear toWeek
          = .error ⟨400, "fromYear/fromWeek/toYear/toWeek required"⟩
        ∧ purchaseHandler orders ls materialId fromYear fromWeek toYear toWeek
          = .error ⟨400, "fromYear/fromWeek/toYear/toWeek required"⟩
        ∧ salesPlanGetHandler sp productId fromYear fromWeek toYear toWeek
          = .error ⟨400, "productId/from/to required"⟩)
    ∧ (∀ (sp : List SPRow)
      (productId fromYear fromWeek toYear toWeek : Option String),
      parseIntSafe productId = none →
      salesPlanGetHandler sp productId fromYear fromWeek toYear toWeek
        = .error ⟨400, "productId/from/to required"⟩) := by
  constructor
  · intro rows orders ls sp productId materialId fromYear fromWeek toYear
      toWeek h
    rcases h with h | h | h | h <;>
      exact ⟨by simp [productionHandler, h, truthy],
        by simp [purchaseHandler, h, truthy],
        by simp [salesPlanGetHandler, h, truthy]⟩
  · intro sp productId fromYear fromWeek toYear toWeek h
    simp [salesPlanGetHandler, h, truthy]

theorem purchaseQualifies_false_of_range (fy fw ty tw : Int)
    (mid? : Option Int) (pr : PurchaseOrder × PurchaseOrderLine)
    (h : (afterFrom pr.2.etaYear pr.2.etaWeek fy fw
          && beforeTo pr.2.etaYear pr.2.etaWeek ty tw) = false) :
    purchasePairQualifies fy fw ty tw mid? pr = false := by
  unfold purchasePairQualifies
  rcases Bool.and_eq_false_iff.mp h with h1 | h1 <;> simp [h1]

theorem range_filter_empty (fy fw ty tw y w : Int)
    (hinv : ty < fy ∨ (ty = fy ∧ tw < fw)) :
    (afterFrom y w fy fw && beforeTo y w ty tw) = false := by
  cases hA : afterFrom y w fy fw
  · simp
  · cases hB : beforeTo y w ty tw
    · simp
    · exfalso
      simp only [afterFrom, Bool.or_eq_true, Bool.and_eq_true,
        decide_eq_true_eq, beq_iff_eq] at hA
      simp only [beforeTo, Bool.or_eq_true, Bool.and_eq_true,
        decide_eq_true_eq, beq_iff_eq] at hB
      omega

/-- C5 counterexample: an inverted week range (from = 2025w50, to =
2025w48) is not rejected as a validation error by any of the three
week-range GET endpoints — each one computes and answers `ok` with an
empty result, even with matching rows in the store. -/
theorem C5_counterexample_inverted_range_not_rejected :
    productionHandler [⟨1, 5, 2025, 49, "ACTIVE"⟩] none
        (some "2025") (some "50") (some "2025") (some "48") = .ok []
    ∧ purchaseHandler [⟨1, "CONFIRM"⟩] [⟨1, 1, 5, 2025, 49⟩] none
        (some "2025") (some "50") (some "2025") (some "48") = .ok []
    ∧ salesPlanGetHandler [⟨1, 2025, 49, 5⟩] (some "1")
        (some "2025") (some "50") (some "2025") (some "48") = .ok [] := by
  refine ⟨?_, ?_, ?_⟩ <;> rfl

/-- C5 amended: a request with an inverted range (fromYear/fromWeek
lexicographically greater than toYear/toWeek) but otherwise valid numeric
fields passes validation on GET /api/production, /api/purchase and
/api/sales-plan; the query runs and the lexicographic week filter makes
the result empty — the request is computed, not rejected. -/
theorem C5_amended_inverted_range_computes_empty :
    ∀ (rows : List ProductionRow) (orders : List PurchaseOrder)
      (ls : List PurchaseOrderLine) (sp : List SPRow)
      (pidS midS fyS fwS tyS twS : Option String) (fy fw ty tw : Int),
      parseIntSafe fyS = some fy → fy ≠ 0 →
      parseIntSafe fwS = some fw → fw ≠ 0 →
      parseIntSafe tyS = some ty → ty ≠ 0 →
      parseIntSafe twS = some tw → tw ≠ 0 →
      (ty < fy ∨ (ty = fy ∧ tw < fw)) →
      productionHandler rows pidS fyS fwS tyS twS = .ok []
      ∧ purchaseHandler orders ls midS fyS fwS tyS twS = .ok []
      ∧ (∀ pid : Int, parseIntSafe pidS = some pid → pid ≠ 0 →
          salesPlanGetHandler sp pidS fyS fwS tyS twS = .ok []) := by
  intro rows orders ls sp pidS midS fyS fwS tyS twS fy fw ty tw
    hfy hfy0 hfw hfw0 hty hty0 htw htw0 hinv
  have t1 : truthy (some fy) = true := by simp [truthy, hfy0]
  have t2 : truthy (some fw) = true := by simp [truthy, hfw0]
  have t3 : truthy (some ty) = true := by simp [truthy, hty0]
  have t4 : truthy (some tw) = true := by simp [truthy, htw0]
  refine ⟨?_, ?_, ?_⟩
  · simp only [productionHandler, hfy, hfw, hty, htw, t1, t2, t3, t4,
      Bool.not_true, Bool.or_self, Bool.false_eq_true, if_false,
      Option.getD_some]
    have hq : rows.filter (prodRowQualifies fy fw ty tw (parseIntSafe pidS))
        = [] := by
      rw [List.filter_eq_nil_iff]
      intro r _
      rw [prodQualifies_false_of_range fy fw ty tw _ r
        (range_filter_empty fy fw ty tw _ _ hinv)]
      simp
    simp [productionGroups, hq]
  · simp only [purchaseHandler, hfy, hfw, hty, htw, t1, t2, t3, t4,
      Bool.not_true, Bool.or_self, Bool.false_eq_true, if_false,
      Option.getD_some]
    have hq : (polJoin orders ls).filter
        (purchasePairQualifies fy fw ty tw (parseIntSafe midS)) = [] := by
      rw [List.filter_eq_nil_iff]
      intro pr _
      rw [purchaseQualifies_false_of_range fy fw ty tw _ pr
        (range_filter_empty fy fw ty tw _ _ hinv)]
      simp
    simp [purchaseGroups, hq]
  · intro pid hpid hpid0
    have t0 : truthy (some pid) = true := by simp [truthy, hpid0]
    simp only [salesPlanGetHandler, hpid, hfy, hfw, hty, htw, t0, t1, t2,
      t3, t4, Bool.not_true, Bool.or_self, Bool.false_eq_true, if_false,
      Option.getD_some]
    have hq : sp.filter (fun r => r.productId == pid
        && afterFrom r.planYear r.planWeek fy fw
        && beforeTo r.planYear r.planWeek ty tw) = [] := by
      rw [List.filter_eq_nil_iff]
      intro r _
      have h1 := range_filter_empty fy fw ty tw r.planYear r.planWeek hinv
      rcases Bool.and_eq_false_iff.mp h1 with h2 | h2 <;> simp [h2]
    simp [salesPlanRowsOut, hq]

theorem weekIdx_nextWeek (w : WeekKey) (h : w.week ≤ 53) :
    weekIdx (nextWeek w) = weekIdx w + 1 := by
  unfold nextWeek weekIdx
  by_cases h2 : w.week < 53 <;> simp [h2]
  all_goals omega

theorem weekValid_nextWeek (w : WeekKey) (h : weekValid w) :
    weekValid (nextWeek w) := by
  unfold weekValid at *
  unfold nextWeek
  by_cases h2 : w.week < 53 <;> simp [h2]
  all_goals omega

theorem weekAdd_spec (a : WeekKey) (ha : weekValid a) :
    ∀ n : Nat, weekValid (weekAdd a n)
      ∧ weekIdx (weekAdd a n) = weekIdx a + n := by
  intro n
  induction n with
  | zero =>
    refine ⟨ha, ?_⟩
    simp [weekAdd]
  | succ n ih =>
    refine ⟨weekValid_nextWeek _ ih.1, ?_⟩
    have h2 := weekIdx_nextWeek (weekAdd a n) ih.1.2
    simp only [weekAdd, h2, ih.2]
    omega

theorem weekIdx_inj (a b : WeekKey) (ha : weekValid a) (hb : weekValid b)
    (h : weekIdx a = weekIdx b) : a = b := by
  rcases a with ⟨y1, w1⟩
  rcases b with ⟨y2, w2⟩
  simp only [weekValid] at ha hb
  simp only [weekIdx] at h
  have hy : y1 = y2 := by omega
  have hw : w1 = w2 := by omega
  rw [hy, hw]

theorem weekBefore_iff (a b : WeekKey) (ha : weekValid a) (hb : weekValid b) :
    weekBefore a b = true ↔ weekIdx a < weekIdx b := by
  rcases a with ⟨y1, w1⟩
  rcases b with ⟨y2, w2⟩
  simp only [weekValid] at ha hb
  simp only [weekBefore, weekIdx, Bool.or_eq_true, Bool.and_eq_true,
    decide_eq_true_eq, beq_iff_eq]
  constructor
  · rintro (h | ⟨h1, h2⟩) <;> omega
  · intro h
    omega

theorem weekAdd_dist (a w : WeekKey) (ha : weekValid a) (hw : weekValid w)
    (h : weekIdx a ≤ weekIdx w) :
    weekAdd a (weekIdx w - weekIdx a).toNat = w := by
  have hs := weekAdd_spec a ha (weekIdx w - weekIdx a).toNat
  apply weekIdx_inj _ _ hs.1 hw
  rw [hs.2]
  omega

theorem projectBalance_none (outflow inflow : WeekKey → Rat) (w : WeekKey) :
    projectBalance none outflow inflow w = 0 := rfl

theorem projectBalance_before (anchor w : WeekKey) (q0 : Rat)
    (outflow inflow : WeekKey → Rat) (h : weekBefore w anchor = true) :
    projectBalance (some (anchor, q0)) outflow inflow w = 0 := by
  show (if weekBefore w anchor then (0 : Rat)
    else balSeq anchor q0 outflow inflow (weekIdx w - weekIdx anchor).toNat)
    = 0
  rw [if_pos h]

theorem projectBalance_anchor (anchor : WeekKey) (q0 : Rat)
    (outflow inflow : WeekKey → Rat) :
    projectBalance (some (anchor, q0)) outflow inflow anchor = q0 := by
  show (if weekBefore anchor anchor then (0 : Rat)
    else balSeq anchor q0 outflow inflow
      (weekIdx anchor - weekIdx anchor).toNat)
    = q0
  rw [if_neg (by simp [weekBefore])]
  rw [sub_self]
  rfl

theorem projectBalance_step (anchor w : WeekKey) (q0 : Rat)
    (outflow inflow : WeekKey → Rat) (ha : weekValid anchor)
    (hw : weekValid w) (h : weekBefore anchor w = true) :
    projectBalance (some (anchor, q0)) outflow inflow w
      = projectBalance (some (anchor, q0)) outflow inflow (prevWeek w)
        - outflow w + inflow w := by
  have hlt : weekIdx anchor < weekIdx w := (weekBefore_iff anchor w ha hw).mp h
  have hprev_idx : weekIdx (prevWeek w) = weekIdx w - 1 := by
    rcases w with ⟨y, wk⟩
    simp only [weekValid] at hw
    unfold prevWeek weekIdx
    by_cases h2 : 1 < wk <;> simp [h2]
    all_goals omega
  have hprev_valid : weekValid (prevWeek w) := by
    rcases w with ⟨y, wk⟩
    simp only [weekValid] at hw
    unfold prevWeek weekValid
    by_cases h2 : 1 < wk <;> simp [h2]
    all_goals omega
  have hnb_w : weekBefore w anchor = false := by
    cases hb : weekBefore w anchor
    · rfl
    · exfalso
      have h2 := (weekBefore_iff w anchor hw ha).mp hb
      omega
  have hnb_p : weekBefore (prevWeek w) anchor = false := by
    cases hb : weekBefore (prevWeek w) anchor
    · rfl
    · exfalso
      have h2 := (weekBefore_iff _ _ hprev_valid ha).mp hb
      omega
  show (if weekBefore w anchor then (0 : Rat)
      else balSeq anchor q0 outflow inflow (weekIdx w - weekIdx anchor).toNat)
    = (if weekBefore (prevWeek w) anchor then (0 : Rat)
      else balSeq anchor q0 outflow inflow
        (weekIdx (prevWeek w) - weekIdx anchor).toNat)
      - outflow w + inflow w
  rw [if_neg (by simp [hnb_w]), if_neg (by simp [hnb_p])]
  have hn : (weekIdx w - weekIdx anchor).toNat
      = (weekIdx (prevWeek w) - weekIdx anchor).toNat + 1 := by
    omega
  rw [hn]
  have hWa : weekAdd anchor
      ((weekIdx (prevWeek w) - weekIdx anchor).toNat + 1) = w := by
    have heq : ((weekIdx (prevWeek w) - weekIdx anchor).toNat + 1)
        = (weekIdx w - weekIdx anchor).toNat := by omega
    rw [heq]
    exact weekAdd_dist anchor w ha hw (le_of_lt hlt)
  rw [balSeq, hWa]

/-- C1: the weekly balance projection recurrence.  With no opening balance
every week projects 0.  For an item anchored at week `anchor` with opening
quantity `q0`: weeks strictly before the anchor project 0; the anchor week
itself projects exactly `q0` for every movement series (movements in the
anchor week do not alter it); and any later week's balance equals the
previous week's balance minus that week's outflow plus that week's inflow,
where a product's outflow/inflow are the ship quantity and the
ACTIVE/COMPLETE production quantity, and a material's are the BOM-derived
consumption and the confirmed purchase quantity. -/
theorem C1_balance_projection_recurrence :
    ∀ (sp : List SPRow) (prows : List ProductionRow) (bom : List BomLine)
      (orders : List PurchaseOrder) (ls : List PurchaseOrderLine)
      (pid mid : Int) (anchor w : WeekKey) (q0 : Rat),
      weekValid anchor → weekValid w →
      (projectProductBalance none sp prows pid w = 0
        ∧ projectMaterialBalance none bom prows orders ls mid w = 0)
      ∧ (weekBefore w anchor = true →
          projectProductBalance (some (anchor, q0)) sp prows pid w = 0
          ∧ projectMaterialBalance (some (anchor, q0)) bom prows orders ls
              mid w = 0)
      ∧ (projectProductBalance (some (anchor, q0)) sp prows pid anchor = q0
          ∧ projectMaterialBalance (some (anchor, q0)) bom prows orders ls
              mid anchor = q0)
      ∧ (weekBefore anchor w = true →
          (projectProductBalance (some (anchor, q0)) sp prows pid w
            = projectProductBalance (some (anchor, q0)) sp prows pid
                (prevWeek w)
              - shipQtyAt sp pid w + productionInflowAt prows pid w)
          ∧ (projectMaterialBalance (some (anchor, q0)) bom prows orders ls
              mid w
            = projectMaterialBalance (some (anchor, q0)) bom prows orders ls
                mid (prevWeek w)
              - bomConsumptionAt bom prows mid w
              + purchaseInflowAt orders ls mid w)) := by
  intro sp prows bom orders ls pid mid anchor w q0 ha hw
  refine ⟨⟨rfl, rfl⟩, ?_, ?_, ?_⟩
  · intro hb
    exact ⟨projectBalance_before anchor w q0 _ _ hb,
      projectBalance_before anchor w q0 _ _ hb⟩
  · exact ⟨projectBalance_anchor anchor q0 _ _,
      projectBalance_anchor anchor q0 _ _⟩
  · intro hb
    exact ⟨projectBalance_step anchor w q0 _ _ ha hw hb,
      projectBalance_step anchor w q0 _ _ ha hw hb⟩

/-! ## Witnesses: the claim theorems applied at concrete inputs -/

/-- C1 witness: product 1 anchored at 2025w47 with opening quantity 20 and
one ACTIVE production order of 5 in 2025w48. -/
theorem C1_balance_projection_recurrence_witness :
    (projectProductBalance none [] [⟨1, 5, 2025, 48, "ACTIVE"⟩] 1
        ⟨2025, 48⟩ = 0
      ∧ projectMaterialBalance none [] [⟨1, 5, 2025, 48, "ACTIVE"⟩] [] [] 1
        ⟨2025, 48⟩ = 0)
    ∧ (projectProductBalance (some (⟨2025, 47⟩, 20)) []
        [⟨1, 5, 2025, 48, "ACTIVE"⟩] 1 ⟨2025, 46⟩ = 0
      ∧ projectMaterialBalance (some (⟨2025, 47⟩, 20)) []
        [⟨1, 5, 2025, 48, "ACTIVE"⟩] [] [] 1 ⟨2025, 46⟩ = 0)
    ∧ (projectProductBalance (some (⟨2025, 47⟩, 20)) []
        [⟨1, 5, 2025, 48, "ACTIVE"⟩] 1 ⟨2025, 47⟩ = 20
      ∧ projectMaterialBalance (some (⟨2025, 47⟩, 20)) []
        [⟨1, 5, 2025, 48, "ACTIVE"⟩] [] [] 1 ⟨2025, 47⟩ = 20)
    ∧ (projectProductBalance (some (⟨2025, 47⟩, 20)) []
        [⟨1, 5, 2025, 48, "ACTIVE"⟩] 1 ⟨2025, 48⟩
      = projectProductBalance (some (⟨2025, 47⟩, 20)) []
          [⟨1, 5, 2025, 48, "ACTIVE"⟩] 1 (prevWeek ⟨2025, 48⟩)
        - shipQtyAt [] 1 ⟨2025, 48⟩
        + productionInflowAt [⟨1, 5, 2025, 48, "ACTIVE"⟩] 1 ⟨2025, 48⟩
      ∧ projectMaterialBalance (some (⟨2025, 47⟩, 20)) []
          [⟨1, 5, 2025, 48, "ACTIVE"⟩] [] [] 1 ⟨2025, 48⟩
      = projectMaterialBalance (some (⟨2025, 47⟩, 20)) []
          [⟨1, 5, 2025, 48, "ACTIVE"⟩] [] [] 1 (prevWeek ⟨2025, 48⟩)
        - bomConsumptionAt [] [⟨1, 5, 2025, 48, "ACTIVE"⟩] 1 ⟨2025, 48⟩
        + purchaseInflowAt [] [] 1 ⟨2025, 48⟩) := by
  have h48 := C1_balance_projection_recurrence []
    [⟨1, 5, 2025, 48, "ACTIVE"⟩] [] [] [] 1 1 ⟨2025, 47⟩ ⟨2025, 48⟩ 20
    (by decide) (by decide)
  have h46 := C1_balance_projection_recurrence []
    [⟨1, 5, 2025, 48, "ACTIVE"⟩] [] [] [] 1 1 ⟨2025, 47⟩ ⟨2025, 46⟩ 20
    (by decide) (by decide)
  exact ⟨h48.1, h46.2.1 (by decide), h48.2.2.1, h48.2.2.2 (by decide)⟩

/-- C2 witness: one ACTIVE order of 5 at 2025w48 queried over
[2025w47, 2025w50]; a lowercase-initial order and an out-of-range order
leave the result unchanged. -/
theorem C2_production_status_filter_and_sum_witness :
    ((afterFrom 2025 48 2025 47 && beforeTo 2025 48 2025 50) = true
      ∧ (5 : Rat) = claimedProductionSumAt [⟨1, 5, 2025, 48, "ACTIVE"⟩]
          (1, 2025, 48))
    ∧ productionGroups
        [⟨1, 10, 2025, 50, "initial"⟩, ⟨1, 5, 2025, 48, "ACTIVE"⟩]
        2025 47 2025 50 none
      = productionGroups [⟨1, 5, 2025, 48, "ACTIVE"⟩] 2025 47 2025 50 none
    ∧ productionGroups
        [⟨1, 7, 2026, 10, "ACTIVE"⟩, ⟨1, 5, 2025, 48, "ACTIVE"⟩]
        2025 47 2025 50 none
      = productionGroups [⟨1, 5, 2025, 48, "ACTIVE"⟩] 2025 47 2025 50
          none := by
  have h := C2_production_status_filter_and_sum [⟨1, 5, 2025, 48, "ACTIVE"⟩]
    2025 47 2025 50
  refine ⟨?_, ?_, ?_⟩
  · refine h.1 ((1, 2025, 48), (5 : Rat)) ?_
    simp +decide [productionGroups, prodKey, prodRowQualifies,
      prodStatusCounts, afterFrom, beforeTo]
  · exact h.2.1 ⟨1, 10, 2025, 50, "initial"⟩ (by decide) none
  · exact h.2.2 ⟨1, 7, 2026, 10, "ACTIVE"⟩ (by decide) none

/-- C3 witness: orders with statuses "Confirm" and "confirm" count as
CONFIRM case-insensitively and their lines feed the sums. -/
theorem C3_purchase_confirm_filter_witness :
    eqCaseInsensitive "confirm" "CONFIRM" = (upperStr "confirm" == "CONFIRM")
    ∧ (5 : Rat) = purchaseQtyAt [⟨1, "Confirm"⟩] [⟨1, 1, 5, 2025, 49⟩]
        2025 47 2025 50 none (1, 2025, 49)
    ∧ purchaseQtyAt [⟨1, "confirm"⟩] [⟨1, 1, 5, 2025, 49⟩]
        2025 47 2025 50 none (1, 2025, 49)
      = (if eqCaseInsensitive "confirm" "CONFIRM" then (5 : Rat) else 0)
        + purchaseQtyAt [⟨1, "confirm"⟩] [] 2025 47 2025 50 none
            (1, 2025, 49) := by
  refine ⟨C3_purchase_confirm_filter.1 "confirm", ?_, ?_⟩
  · refine C3_purchase_confirm_filter.2.1 [⟨1, "Confirm"⟩]
      [⟨1, 1, 5, 2025, 49⟩] 2025 47 2025 50 none
      ((1, 2025, 49), (5 : Rat)) ?_
    simp +decide [purchaseGroups, polJoin, polKey, purchasePairQualifies,
      afterFrom, beforeTo, upperStr]
  · exact C3_purchase_confirm_filter.2.2 [⟨1, "confirm"⟩] []
      ⟨1, "confirm"⟩ ⟨1, 1, 5, 2025, 49⟩ 2025 47 2025 50 (by decide)
      (by decide)

/-- C5 witness: the amended statement at the concrete inverted range
from = 2025w50, to = 2025w48. -/
theorem C5_amended_inverted_range_computes_empty_witness :
    productionHandler [] (some "1") (some "2025") (some "50")
        (some "2025") (some "48") = .ok []
    ∧ purchaseHandler [] [] none (some "2025") (some "50")
        (some "2025") (some "48") = .ok []
    ∧ salesPlanGetHandler [] (some "1") (some "2025") (some "50")
        (some "2025") (some "48") = .ok [] := by
  have h := C5_amended_inverted_range_computes_empty [] [] [] []
    (some "1") none (some "2025") (some "50") (some "2025") (some "48")
    2025 50 2025 48 (by decide) (by decide) (by decide) (by decide)
    (by decide) (by decide) (by decide) (by decide)
    (Or.inr ⟨rfl, by decide⟩)
  exact ⟨h.1, h.2.1, h.2.2 1 (by decide) (by decide)⟩

/-- C6 witness: an absent fromYear and a non-numeric fromWeek ("abc") are
rejected with 400 by all three endpoints; an absent productId is rejected
by GET /api/sales-plan. -/
theorem C6_missing_or_nonnumeric_params_rejected_witness :
    (productionHandler [] none none (some "abc") (some "2025") (some "50")
        = .error ⟨400, "fromYear/fromWeek/toYear/toWeek required"⟩
      ∧ purchaseHandler [] [] none none (some "abc") (some "2025")
          (some "50")
        = .error ⟨400, "fromYear/fromWeek/toYear/toWeek required"⟩
      ∧ salesPlanGetHandler [] none none (some "abc") (some "2025")
          (some "50")
        = .error ⟨400, "productId/from/to required"⟩)
    ∧ salesPlanGetHandler [] none (some "2025") (some "50") (some "2025")
        (some "48")
      = .error ⟨400, "productId/from/to required"⟩ := by
  refine ⟨?_, ?_⟩
  · exact C6_missing_or_nonnumeric_params_rejected.1 [] [] [] [] none none
      none (some "abc") (some "2025") (some "50") (Or.inl (by decide))
  · exact C6_missing_or_nonnumeric_params_rejected.2 [] none (some "2025")
      (some "50") (some "2025") (some "48") (by decide)

/-- C7 witness: a one-row batch commits when no write fails and rolls back
to the unchanged (empty) state with a single 500 error when the write
fails. -/
theorem C7_sales_plan_batch_atomicity_witness :
    salesPlanPut [] (some 1) (some [⟨2025, 48, some 5⟩]) (fun _ => false)
      = (spApplyAll [] 1 [⟨2025, 48, some 5⟩], .ok ())
    ∧ salesPlanPut [] (some 1) (some [⟨2025, 48, some 5⟩]) (fun _ => true)
      = ([], .error ⟨500, "Failed to upsert sales plan"⟩) := by
  refine ⟨?_, ?_⟩
  · exact (C7_sales_plan_batch_atomicity [] 1 [⟨2025, 48, some 5⟩]
      (fun _ => false) (by decide)).1 (fun p _ => rfl)
  · exact (C7_sales_plan_batch_atomicity [] 1 [⟨2025, 48, some 5⟩]
      (fun _ => true) (by decide)).2
      ⟨⟨2025, 48, some 5⟩, List.mem_cons_self _ _, rfl⟩

/-- C8 witness: item 1 with no stored row answers `ok null`; with a stored
row (anchor 2025w47, balance 20) it answers that row. -/
theorem C8_opening_balance_absent_is_null_witness :
    obGetHandler [] "product" "1" = .ok none
    ∧ obGetHandler [⟨'P', 1, 2025, 47, 20⟩] "product" "1"
      = .ok (some ⟨2025, 47, 20⟩) := by
  refine ⟨?_, ?_⟩
  · exact (C8_opening_balance_absent_is_null [] "product" "1" 1 (by decide)
      (by decide)).1 (by decide)
  · exact (C8_opening_balance_absent_is_null [⟨'P', 1, 2025, 47, 20⟩]
      "product" "1" 1 (by decide) (by decide)).2 ⟨'P', 1, 2025, 47, 20⟩ []
      (by decide)

/-- C9 witness: balanceQty 0 with nonzero id/year/week is accepted and
stored. -/
theorem C9_zero_valued_fields_validation_witness :
    obPutHandler [] (some "P") (some 1) (some 2025) (some 47) (some 0)
      = (obMerge [] 'P' 1 2025 47 0, .ok ()) :=
  C9_zero_valued_fields_validation.1 [] 1 2025 47 (by decide) (by decide)
    (by decide)

end MPS
